import Mathlib

/-!
Shallow embedding of `src/main.py`, an OBD-II horsepower monitor.

Conventions of the embedding:
* Python `int` byte values become `ℕ` (with byte-ness `< 256` as a hypothesis
  where the claims need it); decoded values become `ℤ`.
* Python `float` arithmetic in the horsepower calculator and the self test is
  modelled over `ℚ` (exact rational arithmetic mirroring the source formulas).
* A Python function that may raise is modelled with `Except Unit`:
  `Except.error ()` is an uncaught exception (here: an `IndexError` from an
  out-of-range byte access), `Except.ok none` is the `return None` path.
* `sys.exit(1)` is modelled as an `Except.error 1` result or an explicit
  `exit_code` field in an outcome record.
-/

namespace HorsepowerMonitor

/-! ## Torque decoders (src/main.py lines 10-25) -/

/-- `data[i]` on a Python byte sequence: the byte when `i` is in range,
an `IndexError` otherwise. -/
def indexByte (data : List ℕ) (i : ℕ) : Except Unit ℕ :=
  match data.get? i with
  | some b => Except.ok b
  | none => Except.error ()

/-- `decode_percent_torque(messages)`: `None` on an empty message list,
otherwise `A - 125` where `A` is the first data byte of the first message. -/
def decode_percent_torque (messages : List (List ℕ)) : Except Unit (Option ℤ) :=
  match messages with
  | [] => Except.ok none
  | msg :: _ => do
      let A ← indexByte msg 0
      Except.ok (some ((A : ℤ) - 125))

/-- `decode_reference_torque(messages)`: `None` on an empty message list,
otherwise `(A << 8) + B` from the first two data bytes of the first message. -/
def decode_reference_torque (messages : List (List ℕ)) : Except Unit (Option ℤ) :=
  match messages with
  | [] => Except.ok none
  | msg :: _ => do
      let A ← indexByte msg 0
      let B ← indexByte msg 1
      Except.ok (some (((A <<< 8) + B : ℕ) : ℤ))

/-! ## Claims C4, C5, C6, C10 -/

/-- C4: for every message sequence whose first message has at least one data
byte `A < 256`, the percent-torque decoder returns `A - 125`, which lies in
`[-125, 130]`. -/
theorem decode_percent_torque_spec (A : ℕ) (d : List ℕ) (ms : List (List ℕ))
    (hA : A < 256) :
    decode_percent_torque ((A :: d) :: ms) = Except.ok (some ((A : ℤ) - 125)) ∧
    -125 ≤ (A : ℤ) - 125 ∧ (A : ℤ) - 125 ≤ 130 :=
  ⟨rfl, by omega, by omega⟩

/-- Witness for C4 at the top-of-range byte `A = 255`: the decoder yields
`130`, preserved rather than clamped to `125`. -/
theorem decode_percent_torque_spec_witness :
    decode_percent_torque [[255]] = Except.ok (some ((255 : ℤ) - 125)) ∧
    -125 ≤ (255 : ℤ) - 125 ∧ (255 : ℤ) - 125 ≤ 130 :=
  decode_percent_torque_spec 255 [] [] (by decide)

/-- C5: for every message sequence whose first message has at least two data
bytes `A B < 256`, the reference-torque decoder returns `A * 256 + B`, which
lies in `[0, 65535]`. -/
theorem decode_reference_torque_spec (A B : ℕ) (d : List ℕ) (ms : List (List ℕ))
    (hA : A < 256) (hB : B < 256) :
    decode_reference_torque ((A :: B :: d) :: ms) =
      Except.ok (some ((A : ℤ) * 256 + (B : ℤ))) ∧
    0 ≤ (A : ℤ) * 256 + (B : ℤ) ∧ (A : ℤ) * 256 + (B : ℤ) ≤ 65535 := by
  refine ⟨?_, by positivity, by nlinarith⟩
  show Except.ok (some (((A <<< 8) + B : ℕ) : ℤ)) = _
  rw [Nat.shiftLeft_eq]
  push_cast
  ring_nf

/-- Witness for C5 at the maximal bytes `A = B = 255`. -/
theorem decode_reference_torque_spec_witness :
    decode_reference_torque [[255, 255]] =
      Except.ok (some ((255 : ℤ) * 256 + (255 : ℤ))) ∧
    0 ≤ (255 : ℤ) * 256 + (255 : ℤ) ∧ (255 : ℤ) * 256 + (255 : ℤ) ≤ 65535 :=
  decode_reference_torque_spec 255 255 [] [] (by decide) (by decide)

/-- C6: both torque decoders, applied to an empty message sequence, return the
`None` ("no data") result rather than raising. -/
theorem decoders_empty_input :
    decode_percent_torque [] = Except.ok none ∧
    decode_reference_torque [] = Except.ok none :=
  ⟨rfl, rfl⟩

/-- C10: on any message sequence whose first message holds exactly one data
byte, the reference-torque decoder raises (`data[1]` is out of range); the
empty-input guard covers only the empty message sequence. -/
theorem decode_reference_torque_short_payload (A : ℕ) (ms : List (List ℕ)) :
    decode_reference_torque ((A :: ([] : List ℕ)) :: ms) = Except.error () :=
  rfl

/-! ## Telemetry snapshot, horsepower calculator and aggregator
(src/main.py lines 118-153) -/

/-- The mutable `data` dict: `{'RPM': None, 'Torque_Percent': None,
'Reference_Torque': None}`. -/
structure TelemetrySnapshot where
  rpm : Option ℚ
  torque_percent : Option ℚ
  reference_torque : Option ℚ
deriving Repr, DecidableEq

/-- The initial all-`None` snapshot. -/
def initSnapshot : TelemetrySnapshot := ⟨none, none, none⟩

/-- `data['RPM'] is not None and data['Torque_Percent'] is not None and
data['Reference_Torque'] is not None` (the guard on line 122). -/
def complete (d : TelemetrySnapshot) : Bool :=
  d.rpm.isSome && d.torque_percent.isSome && d.reference_torque.isSome

/-- One printed three-line report (the body of `process_data`). -/
structure Report where
  actual_torque_nm : ℚ
  horsepower : ℚ
deriving Repr, DecidableEq

/-- `process_data()`: when all three fields are set, compute
`actual_torque_nm = (Torque_Percent / 100.0) * Reference_Torque` and
`horsepower = (actual_torque_nm * RPM) / 7127` and report them;
otherwise do nothing. -/
def process_data (d : TelemetrySnapshot) : Option Report :=
  match d.rpm, d.torque_percent, d.reference_torque with
  | some rpm, some tp, some rt =>
      let actual_torque_nm := tp / 100 * rt
      some ⟨actual_torque_nm, actual_torque_nm * rpm / 7127⟩
  | _, _, _ => none

/-- The three snapshot fields a callback can target. -/
inductive Field where
  | rpm
  | torque_percent
  | reference_torque
deriving Repr, DecidableEq

/-- Overwrite one snapshot field with a freshly decoded value. -/
def setField (d : TelemetrySnapshot) : Field → ℚ → TelemetrySnapshot
  | Field.rpm, x => { d with rpm := some x }
  | Field.torque_percent, x => { d with torque_percent := some x }
  | Field.reference_torque, x => { d with reference_torque := some x }

/-- One callback invocation (`new_rpm` / `new_torque_percent` /
`new_reference_torque`): a null result is ignored; a non-null result
overwrites its field and `process_data` runs synchronously. -/
def deliver (d : TelemetrySnapshot) (f : Field) (v : Option ℚ) :
    TelemetrySnapshot × Option Report :=
  match v with
  | none => (d, none)
  | some x =>
      let updated := setField d f x
      (updated, process_data updated)

/-- Run a whole sequence of callback deliveries, collecting the reports
emitted along the way. -/
def runCallbacks : TelemetrySnapshot → List (Field × Option ℚ) →
    TelemetrySnapshot × List Report
  | d, [] => (d, [])
  | d, (f, v) :: rest =>
      let step := deliver d f v
      let tail := runCallbacks step.1 rest
      (tail.1, step.2.toList ++ tail.2)

/-! ### Aggregator lemmas -/

lemma process_data_isSome (d : TelemetrySnapshot) :
    (process_data d).isSome = complete d := by
  rcases d with ⟨r, t, q⟩
  cases r <;> cases t <;> cases q <;> simp [process_data, complete]

lemma complete_setField (d : TelemetrySnapshot) (f : Field) (x : ℚ)
    (h : complete d = true) : complete (setField d f x) = true := by
  rcases d with ⟨r, t, q⟩
  cases f <;> simp_all [setField, complete]

lemma process_data_complete (d : TelemetrySnapshot) (h : complete d = true) :
    process_data d =
      some ⟨d.torque_percent.getD 0 / 100 * d.reference_torque.getD 0,
            d.torque_percent.getD 0 / 100 * d.reference_torque.getD 0 *
              d.rpm.getD 0 / 7127⟩ := by
  rcases d with ⟨r, t, q⟩
  cases r <;> cases t <;> cases q <;> simp_all [process_data, complete]

lemma process_data_incomplete (d : TelemetrySnapshot) (h : complete d = false) :
    process_data d = none := by
  have hs := process_data_isSome d
  rw [h] at hs
  exact Option.not_isSome_iff_eq_none.mp (by simp [hs])

lemma complete_runCallbacks (l : List (Field × Option ℚ)) :
    ∀ d : TelemetrySnapshot, complete d = true →
      complete (runCallbacks d l).1 = true := by
  induction l with
  | nil => intro d h; simpa [runCallbacks] using h
  | cons p rest ih =>
      intro d h
      rcases p with ⟨f, v⟩
      cases v with
      | none => simpa [runCallbacks, deliver] using ih d h
      | some x =>
          simpa [runCallbacks, deliver] using
            ih (setField d f x) (complete_setField d f x h)

lemma runCallbacks_incomplete (l : List (Field × Option ℚ)) :
    ∀ d : TelemetrySnapshot, complete (runCallbacks d l).1 = false →
      (runCallbacks d l).2 = [] := by
  induction l with
  | nil => intro d _; simp [runCallbacks]
  | cons p rest ih =>
      intro d h
      rcases p with ⟨f, v⟩
      cases v with
      | none =>
          simp only [runCallbacks, deliver] at h ⊢
          simpa using ih d h
      | some x =>
          simp only [runCallbacks, deliver] at h ⊢
          have hupd : complete (setField d f x) = false := by
            by_contra hc
            have : complete (setField d f x) = true := by
              cases hcc : complete (setField d f x) with
              | false => exact absurd hcc hc
              | true => rfl
            have := complete_runCallbacks rest (setField d f x) this
            simp [this] at h
          have hnone : process_data (setField d f x) = none := by
            have := process_data_isSome (setField d f x)
            rw [hupd] at this
            exact Option.not_isSome_iff_eq_none.mp (by simp [this])
          simp [hnone, ih (setField d f x) h]

lemma runCallbacks_complete_length (l : List (Field × Option ℚ)) :
    ∀ d : TelemetrySnapshot, complete d = true →
      (runCallbacks d l).2.length =
        (l.filter (fun p => p.2.isSome)).length := by
  induction l with
  | nil => intro d _; simp [runCallbacks]
  | cons p rest ih =>
      intro d h
      rcases p with ⟨f, v⟩
      cases v with
      | none =>
          simp only [runCallbacks, deliver]
          simpa using ih d h
      | some x =>
          have hupd := complete_setField d f x h
          have hsome : (process_data (setField d f x)).isSome = true := by
            rw [process_data_isSome, hupd]
          obtain ⟨rep, hrep⟩ := Option.isSome_iff_exists.mp hsome
          simp only [runCallbacks, deliver, hrep]
          simpa using ih (setField d f x) hupd

/-! ## Claims C1 and C3 -/

/-- C1: on every complete snapshot — for all rational inputs, negative
percent torque included, with no clamping or special-casing —
`process_data` reports `ActualTorqueNm = (TorquePercent / 100) *
ReferenceTorqueNm` and `HorsepowerHP = ActualTorqueNm * RPM / 7127`. -/
theorem process_data_formula (rpm tp rt : ℚ) :
    process_data ⟨some rpm, some tp, some rt⟩ =
      some ⟨tp / 100 * rt, tp / 100 * rt * rpm / 7127⟩ :=
  rfl

/-- C3: (i) a delivery sequence that leaves some field unset emits no report;
(ii) a null delivery changes nothing and emits nothing; (iii) a non-null
delivery whose updated snapshot is still missing a field emits nothing;
(iv) a non-null delivery whose updated snapshot is complete — the delivery
that completes the snapshot for the first time included — emits exactly one
report computed from the updated snapshot, that is, from the delivered value
and the most recent values of the other two fields; (v) from a complete
snapshot, exactly one report is emitted per non-null delivery; (vi) updating
one field leaves the most recent values of the other two fields untouched.
Parts (ii)-(iv) cover every possible single delivery, so emission is settled
at every step of every sequence. -/
theorem aggregator_emission (l : List (Field × Option ℚ)) :
    (complete (runCallbacks initSnapshot l).1 = false →
      (runCallbacks initSnapshot l).2 = []) ∧
    (∀ (d : TelemetrySnapshot) (f : Field), deliver d f none = (d, none)) ∧
    (∀ (d : TelemetrySnapshot) (f : Field) (x : ℚ),
      complete (setField d f x) = false →
      deliver d f (some x) = (setField d f x, none)) ∧
    (∀ (d : TelemetrySnapshot) (f : Field) (x : ℚ),
      complete (setField d f x) = true →
      deliver d f (some x) =
        (setField d f x,
          some ⟨(setField d f x).torque_percent.getD 0 / 100 *
                  (setField d f x).reference_torque.getD 0,
                (setField d f x).torque_percent.getD 0 / 100 *
                  (setField d f x).reference_torque.getD 0 *
                  (setField d f x).rpm.getD 0 / 7127⟩)) ∧
    (∀ d : TelemetrySnapshot, complete d = true →
      (runCallbacks d l).2.length =
        (l.filter (fun p => p.2.isSome)).length) ∧
    (∀ (d : TelemetrySnapshot) (x : ℚ),
      (setField d Field.rpm x).torque_percent = d.torque_percent ∧
      (setField d Field.rpm x).reference_torque = d.reference_torque ∧
      (setField d Field.torque_percent x).rpm = d.rpm ∧
      (setField d Field.torque_percent x).reference_torque =
        d.reference_torque ∧
      (setField d Field.reference_torque x).rpm = d.rpm ∧
      (setField d Field.reference_torque x).torque_percent =
        d.torque_percent) := by
  refine ⟨runCallbacks_incomplete l initSnapshot, fun d f => rfl, ?_, ?_,
          runCallbacks_complete_length l,
          fun d x => ⟨rfl, rfl, rfl, rfl, rfl, rfl⟩⟩
  · intro d f x h
    simp [deliver, process_data_incomplete (setField d f x) h]
  · intro d f x h
    simp [deliver, process_data_complete (setField d f x) h]

/-- Witness for C3 along the spec scenario, starting from the empty
snapshot: the RPM-only run emits nothing; the TorquePercent delivery still
emits nothing; the ReferenceTorque delivery completes the snapshot and emits
exactly one report using the last-seen RPM 3000; a fresh RPM delivery to the
now-complete snapshot emits exactly one more report. -/
theorem aggregator_emission_witness :
    (runCallbacks initSnapshot [(Field.rpm, some 3000)]).2 = [] ∧
    deliver ⟨some 3000, none, none⟩ Field.torque_percent (some 50) =
      (⟨some 3000, some 50, none⟩, none) ∧
    deliver ⟨some 3000, some 50, none⟩ Field.reference_torque (some 300) =
      (⟨some 3000, some 50, some 300⟩,
        some ⟨(50 : ℚ) / 100 * 300, (50 : ℚ) / 100 * 300 * 3000 / 7127⟩) ∧
    (runCallbacks ⟨some 3000, some 50, some 300⟩
        [(Field.rpm, some 3500)]).2.length = 1 := by
  have h := aggregator_emission [(Field.rpm, some 3000)]
  have h2 := aggregator_emission [(Field.rpm, some 3500)]
  refine ⟨h.1 rfl, ?_, ?_, ?_⟩
  · simpa [setField] using
      h.2.2.1 ⟨some 3000, none, none⟩ Field.torque_percent 50 rfl
  · simpa [setField] using
      h.2.2.2.1 ⟨some 3000, some 50, none⟩ Field.reference_torque 300 rfl
  · simpa using h2.2.2.2.2.1 ⟨some 3000, some 50, some 300⟩ rfl

/-! ## Self test and CLI dispatch (src/main.py lines 167-189) -/

/-- Python `f-string` formatting to two decimal places, as the exact rational
it prints: round half up at the second decimal (the values below are far from
ties, so half-up agrees with the float formatting of the source). -/
def round2 (q : ℚ) : ℚ := ((⌊q * 100 + 1 / 2⌋ : ℤ) : ℚ) / 100

/-- The five values the self test prints. -/
structure SelfTestReport where
  rpm : ℚ
  torque_percent : ℚ
  reference_torque : ℚ
  actual_torque_nm : ℚ
  horsepower : ℚ
deriving Repr, DecidableEq

/-- `self_test()`: the fixed-input calculation with RPM 3000, percent torque
50 and reference torque 300, touching no transport. -/
def self_test : SelfTestReport :=
  let rpm : ℚ := 3000
  let torque_percent : ℚ := 50
  let reference_torque : ℚ := 300
  let actual_torque_nm := torque_percent / 100 * reference_torque
  { rpm := rpm
    torque_percent := torque_percent
    reference_torque := reference_torque
    actual_torque_nm := actual_torque_nm
    horsepower := actual_torque_nm * rpm / 7127 }

/-- What `__main__` runs for a given `sys.argv`. -/
inductive ProgramMode where
  | selfTest
  | live
deriving Repr, DecidableEq

/-- `if len(sys.argv) > 1 and sys.argv[1] == "--self-test"` on lines 186-189. -/
def dispatch (argv : List String) : ProgramMode :=
  match argv with
  | _ :: a :: _ =>
      if a = "--self-test" then ProgramMode.selfTest else ProgramMode.live
  | _ => ProgramMode.live

lemma self_test_horsepower_eq : self_test.horsepower = 450000 / 7127 := by
  norm_num [self_test]

lemma round2_self_test_horsepower : round2 self_test.horsepower = 6314 / 100 := by
  have hfloor : ⌊self_test.horsepower * 100 + 1 / 2⌋ = (6314 : ℤ) := by
    rw [self_test_horsepower_eq, Int.floor_eq_iff]
    norm_num
  rw [round2, hfloor]
  norm_num

/-! ## Claim C2 -/

/-- C2 counterexample: with `--self-test` the program does run the fixed-input
self test, but the horsepower it prints to two decimal places is not `63.17`:
`150 * 3000 / 7127 = 63.1402...`, which renders as `63.14`. -/
theorem self_test_horsepower_not_63_17 :
    dispatch ["main.py", "--self-test"] = ProgramMode.selfTest ∧
    round2 self_test.horsepower ≠ 6317 / 100 := by
  refine ⟨rfl, ?_⟩
  rw [round2_self_test_horsepower]
  norm_num

/-- C2 (amended): with the single flag `--self-test` the program performs the
fixed-input calculation RPM 3000, TorquePercent 50, ReferenceTorque 300, and
prints ActualTorque `150.00` Nm and Horsepower `63.14` HP. -/
theorem self_test_values :
    dispatch ["main.py", "--self-test"] = ProgramMode.selfTest ∧
    self_test.rpm = 3000 ∧
    self_test.torque_percent = 50 ∧
    self_test.reference_torque = 300 ∧
    self_test.actual_torque_nm = 150 ∧
    round2 self_test.actual_torque_nm = 150 ∧
    self_test.horsepower = 450000 / 7127 ∧
    round2 self_test.horsepower = 6314 / 100 := by
  have hat : self_test.actual_torque_nm = 150 := by norm_num [self_test]
  refine ⟨rfl, by norm_num [self_test], by norm_num [self_test],
    by norm_num [self_test], hat, ?_, self_test_horsepower_eq,
    round2_self_test_horsepower⟩
  rw [hat, round2]
  norm_num

/-! ## Connection discovery (src/main.py lines 46-87) -/

/-- Outcome of one attempt to open a diagnostic session on a candidate:
the constructor raised, the object reported not connected, or it reported
connected (carrying an abstract session id). -/
inductive ProbeResult where
  | raised
  | notConnected
  | connected (session : ℕ)
deriving Repr, DecidableEq

/-- The environment the discovery loop probes: the platform's serial port
enumeration and oracles for the serial open, the TCP reachability check and
the socket-transport open. -/
structure DiscoveryEnv where
  serial_ports : List String
  serial_probe : String → ProbeResult
  tcp_reachable : String → ℕ → Bool
  wifi_probe : String → ℕ → ProbeResult

/-- The hardcoded WiFi fallback list of lines 66-71, in source order. -/
def wifi_addresses : List (String × ℕ) :=
  [("192.168.0.10", 35000), ("192.168.0.10", 23),
   ("192.168.0.11", 35000), ("192.168.0.123", 35000)]

/-- One candidate transport, in the two families the loop tries. -/
inductive Candidate where
  | serial (port : String)
  | wifi (ip : String) (port : ℕ)
deriving Repr, DecidableEq

/-- One loop body: a serial candidate succeeds when the open does not raise
and the session reports connected; a WiFi candidate additionally requires the
plain TCP reachability check to succeed first. Every failure is swallowed
(`none`). -/
def tryCandidate (env : DiscoveryEnv) : Candidate → Option ℕ
  | Candidate.serial p =>
      match env.serial_probe p with
      | ProbeResult.connected s => some s
      | _ => none
  | Candidate.wifi ip port =>
      if env.tcp_reachable ip port then
        match env.wifi_probe ip port with
        | ProbeResult.connected s => some s
        | _ => none
      else none

/-- The full candidate order of `connect_obd`: every enumerated serial port,
then the fixed WiFi list. -/
def candidates (env : DiscoveryEnv) : List Candidate :=
  env.serial_ports.map Candidate.serial ++
    wifi_addresses.map (fun a => Candidate.wifi a.1 a.2)

/-- The discovery loop over a candidate list, also recording which candidates
were probed: it stops at the first success. -/
def probeLoop (env : DiscoveryEnv) : List Candidate → List Candidate × Option ℕ
  | [] => ([], none)
  | c :: cs =>
      match tryCandidate env c with
      | some s => ([c], some s)
      | none =>
          let tail := probeLoop env cs
          (c :: tail.1, tail.2)

/-- `connect_obd()`: probe the candidates in order; `Except.ok s` is a
returned connected session, `Except.error 1` is `sys.exit(1)`. -/
def connect_obd (env : DiscoveryEnv) : List Candidate × Except ℕ ℕ :=
  let r := probeLoop env (candidates env)
  (r.1,
    match r.2 with
    | some s => Except.ok s
    | none => Except.error 1)

/-! ### Discovery lemmas -/

lemma probeLoop_probes_in_order (env : DiscoveryEnv) (cs : List Candidate) :
    ∃ rest, cs = (probeLoop env cs).1 ++ rest := by
  induction cs with
  | nil => exact ⟨[], rfl⟩
  | cons c cs ih =>
      cases h : tryCandidate env c with
      | some s => exact ⟨cs, by simp [probeLoop, h]⟩
      | none =>
          obtain ⟨rest, hrest⟩ := ih
          exact ⟨rest, by simp [probeLoop, h]; exact hrest⟩

lemma probeLoop_success (env : DiscoveryEnv) (cs : List Candidate) :
    ∀ s, (probeLoop env cs).2 = some s →
      ∃ t c, (probeLoop env cs).1 = t ++ [c] ∧ tryCandidate env c = some s ∧
        ∀ x ∈ t, tryCandidate env x = none := by
  induction cs with
  | nil => intro s hs; simp [probeLoop] at hs
  | cons c cs ih =>
      intro s hs
      cases h : tryCandidate env c with
      | some s0 =>
          have hs0 : s0 = s := by simpa [probeLoop, h] using hs
          subst hs0
          exact ⟨[], c, by simp [probeLoop, h], h, by simp⟩
      | none =>
          simp only [probeLoop, h] at hs ⊢
          obtain ⟨t, c0, ht, hc0, hall⟩ := ih s hs
          refine ⟨c :: t, c0, by simp [ht], hc0, ?_⟩
          intro x hx
          rcases List.mem_cons.mp hx with hxc | hxt
          · rw [hxc]; exact h
          · exact hall x hxt

lemma probeLoop_failure (env : DiscoveryEnv) (cs : List Candidate) :
    (probeLoop env cs).2 = none →
      (probeLoop env cs).1 = cs ∧ ∀ c ∈ cs, tryCandidate env c = none := by
  induction cs with
  | nil => intro _; simp [probeLoop]
  | cons c cs ih =>
      intro hs
      cases h : tryCandidate env c with
      | some s0 => simp [probeLoop, h] at hs
      | none =>
          simp only [probeLoop, h] at hs ⊢
          obtain ⟨htrace, hall⟩ := ih hs
          refine ⟨by simp [htrace], ?_⟩
          intro x hx
          rcases List.mem_cons.mp hx with hxc | hxt
          · rw [hxc]; exact h
          · exact hall x hxt

/-! ## Claim C7 -/

/-- C7: discovery probes the serial candidates in enumeration order before
the fixed WiFi list, and the probed candidates form a prefix of that order;
a success returns the first connected session with every earlier candidate
having failed, and no candidate after the success is probed; if every
candidate fails, all were probed and the process exits with status 1, and
status 1 is the only failure status. -/
theorem connect_obd_spec (env : DiscoveryEnv) :
    (candidates env = env.serial_ports.map Candidate.serial ++
      wifi_addresses.map (fun a => Candidate.wifi a.1 a.2)) ∧
    (∃ rest, candidates env = (connect_obd env).1 ++ rest) ∧
    (∀ s, (connect_obd env).2 = Except.ok s →
      ∃ t c, (connect_obd env).1 = t ++ [c] ∧ tryCandidate env c = some s ∧
        ∀ x ∈ t, tryCandidate env x = none) ∧
    ((connect_obd env).2 = Except.error 1 →
      (connect_obd env).1 = candidates env ∧
        ∀ c ∈ candidates env, tryCandidate env c = none) ∧
    (∀ n, (connect_obd env).2 = Except.error n → n = 1) := by
  refine ⟨rfl, ?_, ?_, ?_, ?_⟩
  · exact probeLoop_probes_in_order env (candidates env)
  · intro s hs
    cases h : (probeLoop env (candidates env)).2 with
    | none => simp [connect_obd, h] at hs
    | some s0 =>
        have : s0 = s := by simpa [connect_obd, h] using hs
        subst this
        exact probeLoop_success env (candidates env) s0 h
  · intro hs
    cases h : (probeLoop env (candidates env)).2 with
    | none => exact probeLoop_failure env (candidates env) h
    | some s0 => simp [connect_obd, h] at hs
  · intro n hn
    cases h : (probeLoop env (candidates env)).2 with
    | none => simpa [connect_obd, h] using hn.symm
    | some s0 => simp [connect_obd, h] at hn

/-- A discovery environment realising the spec scenario: both serial ports
raise, the first WiFi address is unreachable, the second accepts TCP and
yields a connected session (id 7). -/
def scenarioEnv : DiscoveryEnv where
  serial_ports := ["/dev/ttyUSB0", "/dev/rfcomm0"]
  serial_probe := fun _ => ProbeResult.raised
  tcp_reachable := fun _ port => decide (port = 23)
  wifi_probe := fun _ _ => ProbeResult.connected 7

/-- A discovery environment in which every candidate fails. -/
def allFailEnv : DiscoveryEnv where
  serial_ports := ["/dev/ttyUSB0"]
  serial_probe := fun _ => ProbeResult.notConnected
  tcp_reachable := fun _ _ => false
  wifi_probe := fun _ _ => ProbeResult.raised

/-- Witness for C7 on the spec's discovery scenario and on total failure. -/
theorem connect_obd_spec_witness :
    (∃ t c, (connect_obd scenarioEnv).1 = t ++ [c] ∧
      tryCandidate scenarioEnv c = some 7 ∧
      ∀ x ∈ t, tryCandidate scenarioEnv x = none) ∧
    ((connect_obd allFailEnv).1 = candidates allFailEnv ∧
      ∀ c ∈ candidates allFailEnv, tryCandidate allFailEnv c = none) :=
  ⟨(connect_obd_spec scenarioEnv).2.2.1 7 rfl,
   (connect_obd_spec allFailEnv).2.2.2.1 rfl⟩

/-! ## Capability gate (src/main.py lines 104-116 and 150-157) -/

/-- The three required commands checked on lines 104-108, in source order. -/
inductive Cmd where
  | RPM
  | ACTUAL_ENGINE_PERCENT_TORQUE
  | ENGINE_REF_TORQUE
deriving Repr, DecidableEq

/-- `required_commands` of lines 104-108. -/
def required_commands : List Cmd :=
  [Cmd.RPM, Cmd.ACTUAL_ENGINE_PERCENT_TORQUE, Cmd.ENGINE_REF_TORQUE]

/-- What the post-connection part of `main` does: which unsupported command
names it prints, which commands it subscribes with `watch`, whether
`connection.start()` runs, and the exit code of `sys.exit` if reached. -/
structure GateOutcome where
  printed_unsupported : List Cmd
  watched : List Cmd
  polling_started : Bool
  exit_code : Option ℕ
deriving Repr, DecidableEq

/-- Lines 110-116 then 150-157: filter the unsupported commands; if any,
print them all and `sys.exit(1)`; otherwise watch all three commands and
start polling. -/
def capability_gate (supports : Cmd → Bool) : GateOutcome :=
  let unsupported := required_commands.filter (fun c => !supports c)
  if unsupported.isEmpty then
    { printed_unsupported := []
      watched := required_commands
      polling_started := true
      exit_code := none }
  else
    { printed_unsupported := unsupported
      watched := []
      polling_started := false
      exit_code := some 1 }

/-! ## Claim C8 -/

/-- C8: if any required command is unsupported, the program prints exactly
the unsupported commands (all of them, in the required-command order),
exits with status 1, subscribes no callback and never starts polling. -/
theorem capability_gate_spec (supports : Cmd → Bool)
    (h : ∃ c ∈ required_commands, supports c = false) :
    (capability_gate supports).printed_unsupported =
      required_commands.filter (fun c => !supports c) ∧
    (capability_gate supports).exit_code = some 1 ∧
    (capability_gate supports).watched = [] ∧
    (capability_gate supports).polling_started = false := by
  obtain ⟨c, hc, hcf⟩ := h
  have hmem : c ∈ required_commands.filter (fun x => !supports x) :=
    List.mem_filter.mpr ⟨hc, by rw [hcf]; rfl⟩
  have hne : (required_commands.filter (fun c => !supports c)).isEmpty = false := by
    cases hf : required_commands.filter (fun c => !supports c) with
    | nil => exact absurd (hf ▸ hmem) (List.not_mem_nil c)
    | cons a l => rfl
  simp [capability_gate, hne]

/-- Witness for C8 with only the reference-torque command unsupported:
it is printed, the exit status is 1, nothing is watched, polling never
starts. -/
theorem capability_gate_spec_witness :
    (capability_gate
        (fun c => !decide (c = Cmd.ENGINE_REF_TORQUE))).printed_unsupported =
      required_commands.filter
        (fun c => !(fun c => !decide (c = Cmd.ENGINE_REF_TORQUE)) c) ∧
    (capability_gate
        (fun c => !decide (c = Cmd.ENGINE_REF_TORQUE))).exit_code = some 1 ∧
    (capability_gate
        (fun c => !decide (c = Cmd.ENGINE_REF_TORQUE))).watched = [] ∧
    (capability_gate
        (fun c => !decide (c = Cmd.ENGINE_REF_TORQUE))).polling_started =
      false :=
  capability_gate_spec (fun c => !decide (c = Cmd.ENGINE_REF_TORQUE))
    ⟨Cmd.ENGINE_REF_TORQUE, by decide, by decide⟩

/-! ## Polling-phase shutdown (src/main.py lines 160-165 and 185-189) -/

/-- The Python exceptions in play around the indefinite wait of line 161. -/
inductive PyExn where
  | keyboard_interrupt
  | cancelled
  | session_error
deriving Repr, DecidableEq

/-- How the polling phase ends at the process level: an operator SIGINT, or
an unrecoverable error surfacing at the wait. -/
inductive WaitEnd where
  | operator_interrupt
  | session_error
deriving Repr, DecidableEq

/-- The exception that reaches the suspended `await` inside the coroutine:
an operator SIGINT raises `KeyboardInterrupt` in the event loop, whereupon
`asyncio.run` cancels the main task, so the coroutine sees `CancelledError`
— never `KeyboardInterrupt`; an unrecoverable session error propagates as
itself. -/
def coroutine_exn : WaitEnd → PyExn
  | WaitEnd.operator_interrupt => PyExn.cancelled
  | WaitEnd.session_error => PyExn.session_error

/-- Lines 160-165: `try: await ... except KeyboardInterrupt: ... finally:
connection.stop()`, as executed inside the coroutine. The output pairs
whether `connection.stop()` ran (the `finally` clause, which runs on every
exit path, cancellation included) with the result that leaves the block:
the line-162 handler turns the body's outcome into `Except.ok ()` only when
that outcome is literally `KeyboardInterrupt`. -/
def polling_phase (e : WaitEnd) : Bool × Except PyExn Unit :=
  let body : Except PyExn Unit := Except.error (coroutine_exn e)
  let handled : Except PyExn Unit :=
    match body with
    | Except.error PyExn.keyboard_interrupt => Except.ok ()
    | r => r
  (true, handled)

/-- `asyncio.run(main())` on line 189: after an operator SIGINT it awaits
the cancelled task (so the coroutine's `finally` has already run) and then
re-raises the `KeyboardInterrupt` regardless of the coroutine's own result;
otherwise the coroutine's result passes through. -/
def asyncio_run (e : WaitEnd) (coroutine_result : Except PyExn Unit) :
    Except PyExn Unit :=
  match e with
  | WaitEnd.operator_interrupt => Except.error PyExn.keyboard_interrupt
  | WaitEnd.session_error => coroutine_result

/-- The process exit status after the `__main__` dispatch of lines 185-189:
0 when `asyncio.run` returns normally; nonzero when an exception goes
uncaught (CPython uses 1, or 130 for an uncaught `KeyboardInterrupt` on
POSIX — the model only needs it nonzero and uses 1). -/
def program_exit_code (r : Except PyExn Unit) : ℕ :=
  match r with
  | Except.ok _ => 0
  | Except.error _ => 1

/-! ## Claim C9 -/

/-- C9: `connection.stop()` does run on every exit path from the polling
phase — but on an operator interrupt the line-162 `except KeyboardInterrupt`
handler never matches (the coroutine receives the cancellation, not the
interrupt), the cancellation escapes `main`, `asyncio.run` re-raises the
`KeyboardInterrupt`, and the process exit status is nonzero: the claim's
exit-status-0 conjunct fails on the code. -/
theorem polling_phase_interrupt :
    (∀ e : WaitEnd, (polling_phase e).1 = true) ∧
    (polling_phase WaitEnd.operator_interrupt).2 =
      Except.error PyExn.cancelled ∧
    asyncio_run WaitEnd.operator_interrupt
        (polling_phase WaitEnd.operator_interrupt).2 =
      Except.error PyExn.keyboard_interrupt ∧
    program_exit_code
        (asyncio_run WaitEnd.operator_interrupt
          (polling_phase WaitEnd.operator_interrupt).2) ≠ 0 :=
  ⟨fun e => rfl, rfl, rfl, by decide⟩

end HorsepowerMonitor
